import Mathlib

/-!
Shallow embedding of the TizenRT source file
src/os/arch/arm/src/common/up_vfork.c.

The file implements up_vfork, the architecture-dependent completion phase
of the vfork primitive: it allocates a child stack sized from the parent
stack, copies the live stack window, re-bases the stack and frame
pointers, transfers the captured callee-saved registers and pending
syscall return records into the child TCB, and starts the child.

Machine integers (uint32_t) are modelled as Nat with explicit arithmetic
modulo 2^32 where the C code can wrap.  The external collaborators
(task_vforksetup, up_create_stack, task_vforkstart, task_vforkabort) are
not under src/ and are modelled from the spec as oracle results in a
VforkEnv record; the calls up_vfork makes to them are recorded in the
VforkOutcome record.
-/

/-- Modulus of uint32_t arithmetic, 2 to the power 32. -/
def u32Mod : Nat := 4294967296

/-- Unsigned 32-bit subtraction with C wraparound semantics. -/
def u32sub (a b : Nat) : Nat := (a + (u32Mod - b % u32Mod)) % u32Mod

/-- Modelled from the spec: STACK_ALIGNMENT is defined in up_vfork.h, which
is not under src/; it is the platform stack-alignment granularity
(8 bytes for ARM EABI). -/
def STACK_ALIGNMENT : Nat := 8

/-- Modelled from the spec: the architectural register indices REG_R0,
REG_R4 .. REG_R10, REG_FP, REG_SP come from arch headers not under src/;
only their distinctness matters here.  ARM numbering is used, with the
frame pointer at R11 and the stack pointer at R13. -/
def REG_R0 : Nat := 0

def REG_R4 : Nat := 4

def REG_R5 : Nat := 5

def REG_R6 : Nat := 6

def REG_R7 : Nat := 7

def REG_R8 : Nat := 8

def REG_R9 : Nat := 9

def REG_R10 : Nat := 10

def REG_FP : Nat := 11

def REG_SP : Nat := 13

/-- Register context captured by the vfork trampoline
(struct vfork_s from up_vfork.h, as read by up_vfork.c). -/
structure vfork_s where
  r4 : Nat
  r5 : Nat
  r6 : Nat
  r7 : Nat
  r8 : Nat
  r9 : Nat
  r10 : Nat
  fp : Nat
  sp : Nat
  lr : Nat

/-- One pending syscall return record (struct xcpt_syscall_s).  The second
field is the privilege-state word copied on the Cortex-A / Cortex-R
configurations of lines 243-253; on Cortex-M it is the exception-return
word of line 258, with the identical copy rule. -/
structure xcpt_syscall_s where
  sysreturn : Nat
  cpsr : Nat
deriving DecidableEq

/-- Exception context of a TCB: the saved-register array, the count of
pending nested syscall frames, and the syscall record array. -/
structure xcptcontext where
  regs : Nat → Nat
  nsyscalls : Nat
  syscall : Nat → xcpt_syscall_s

/-- The fields of struct tcb_s read or written by up_vfork.
Addresses are byte addresses as Nat. -/
structure tcb_s where
  adj_stack_ptr : Nat
  adj_stack_size : Nat
  stack_alloc_ptr : Nat
  flags : Nat
  xcp : xcptcontext

/-- Child task TCB (struct task_tcb_s), whose common part is a tcb_s. -/
structure task_tcb_s where
  cmn : tcb_s

/-- Stack region reported by the stack allocator: usable bounds
[base, base + size). -/
structure StackRegion where
  base : Nat
  size : Nat

/-- Modelled from the spec: postcondition of the external allocator
up_create_stack (not under src/).  Due to alignment operations the
adjusted stack size may be smaller than the requested size: it is the
requested size aligned down to STACK_ALIGNMENT, and the adjusted stack
pointer sits at the top of the region. -/
abbrev up_create_stack_post (stacksize : Nat) (r : StackRegion) : Prop :=
  r.size = stacksize / STACK_ALIGNMENT * STACK_ALIGNMENT

/-- Oracle results of the external collaborators for one up_vfork call:
the child TCB produced by task_vforksetup (none on failure), the return
code of up_create_stack together with the region it installs on success,
and the return value of task_vforkstart. -/
structure VforkEnv where
  setup : Option task_tcb_s
  create_ret : Int
  region : StackRegion
  start_ret : Int

/-- Byte memory, addressed by Nat. -/
def memcpy (mem : Nat → Nat) (dst src n : Nat) : Nat → Nat :=
  fun a => if dst ≤ a ∧ a < dst + n then mem (src + (a - dst)) else mem a

/-- Observable outcome of one up_vfork call: the returned pid or error,
the error codes up_vfork itself passed to task_vforkabort, whether
task_vforkstart was reached, whether the DEBUGASSERT of line 187 fired
(modelled as a fatal stop), the final child TCB on the full path, the
resulting memory, and the byte count given to memcpy. -/
structure VforkOutcome where
  retval : Int
  aborts : List Int
  startCalled : Bool
  fatal : Bool
  child : Option task_tcb_s
  mem : Nat → Nat
  copied : Nat

/-- The ERROR sentinel returned on failure. -/
def ERROR : Int := -1

/-- The OK status of up_create_stack. -/
def OK : Int := 0

/-- Line 162: stacksize = parent adjusted stack size + STACK_ALIGNMENT - 1. -/
def vfork_stacksize (parent : tcb_s) : Nat :=
  parent.adj_stack_size + STACK_ALIGNMENT - 1

/-- Line 188: stackutil = parent adjusted stack top - captured sp
(uint32 arithmetic). -/
def vfork_stackutil (parent : tcb_s) (context : vfork_s) : Nat :=
  u32sub parent.adj_stack_ptr context.sp

/-- Line 199: newsp = child adjusted stack top - stackutil. -/
def vfork_newsp (childTop : Nat) (parent : tcb_s) (context : vfork_s) : Nat :=
  u32sub childTop (vfork_stackutil parent context)

/-- Line 204: the in-window test for the captured frame pointer,
fp <= parent top and fp >= parent top - stacksize (uint32 arithmetic). -/
abbrev vfork_fp_inwindow (parent : tcb_s) (context : vfork_s) : Prop :=
  context.fp ≤ parent.adj_stack_ptr ∧
    u32sub parent.adj_stack_ptr (vfork_stacksize parent) ≤ context.fp

/-- Lines 204-209: the re-based (or copied) child frame pointer. -/
def vfork_newfp (childTop : Nat) (parent : tcb_s) (context : vfork_s) : Nat :=
  if vfork_fp_inwindow parent context then
    u32sub childTop (u32sub parent.adj_stack_ptr context.fp)
  else
    context.fp

/-- Lines 221-229: the nine saved-register slots written by up_vfork. -/
def vfork_regs (regs0 : Nat → Nat) (context : vfork_s) (newfp newsp : Nat) :
    Nat → Nat :=
  Function.update
    (Function.update
      (Function.update
        (Function.update
          (Function.update
            (Function.update
              (Function.update
                (Function.update
                  (Function.update regs0 REG_R4 context.r4)
                  REG_R5 context.r5)
                REG_R6 context.r6)
              REG_R7 context.r7)
            REG_R8 context.r8)
          REG_R9 context.r9)
        REG_R10 context.r10)
      REG_FP newfp)
    REG_SP newsp

/-- Lines 238-262: the loop copying the first n parent syscall records
over the child syscall array. -/
def copySyscalls (p c : Nat → xcpt_syscall_s) : Nat → Nat → xcpt_syscall_s
  | 0 => c
  | n + 1 => Function.update (copySyscalls p c n) n (p n)

/-- Lines 199-265: the child TCB after up_create_stack installed the
region and up_vfork performed the context transfer and the conditional
syscall replication of lines 236-265. -/
def vfork_child (parent : tcb_s) (context : vfork_s) (region : StackRegion)
    (child0 : task_tcb_s) : task_tcb_s :=
  let childTop := region.base + region.size
  let newsp := vfork_newsp childTop parent context
  let newfp := vfork_newfp childTop parent context
  let regs1 := vfork_regs child0.cmn.xcp.regs context newfp newsp
  let xcp1 : xcptcontext :=
    if 0 < parent.xcp.nsyscalls then
      ⟨regs1, parent.xcp.nsyscalls,
        copySyscalls parent.xcp.syscall child0.cmn.xcp.syscall
          parent.xcp.nsyscalls⟩
    else
      ⟨regs1, child0.cmn.xcp.nsyscalls, child0.cmn.xcp.syscall⟩
  ⟨⟨region.base + region.size, region.size, region.base,
    child0.cmn.flags, xcp1⟩⟩

/-- The function up_vfork of lines 132-273.  The match on the setup result
is line 150, the create_ret test is line 167 (with the abort call of line
169), the sp test is the DEBUGASSERT of line 187 modelled as a fatal stop,
the memcpy is line 200, and the final outcome returns the
task_vforkstart result of line 272. -/
def up_vfork (parent : tcb_s) (context : vfork_s) (env : VforkEnv)
    (mem : Nat → Nat) : VforkOutcome :=
  match env.setup with
  | none => ⟨ERROR, [], false, false, none, mem, 0⟩
  | some child0 =>
    if env.create_ret ≠ OK then
      ⟨ERROR, [-env.create_ret], false, false, none, mem, 0⟩
    else if parent.adj_stack_ptr ≤ context.sp then
      ⟨ERROR, [], false, true, none, mem, 0⟩
    else
      ⟨env.start_ret, [], true, false,
        some (vfork_child parent context env.region child0),
        memcpy mem
          (vfork_newsp (env.region.base + env.region.size) parent context)
          context.sp (vfork_stackutil parent context),
        vfork_stackutil parent context⟩

/-- Saved-register slot i of the transferred child (0 when no child). -/
def childRegs (o : VforkOutcome) (i : Nat) : Nat :=
  match o.child with
  | some c => c.cmn.xcp.regs i
  | none => 0

/-- Pending syscall count of the transferred child (0 when no child). -/
def childNsyscalls (o : VforkOutcome) : Nat :=
  match o.child with
  | some c => c.cmn.xcp.nsyscalls
  | none => 0

/-- Syscall record i of the transferred child (zero record when no child). -/
def childSyscall (o : VforkOutcome) (i : Nat) : xcpt_syscall_s :=
  match o.child with
  | some c => c.cmn.xcp.syscall i
  | none => ⟨0, 0⟩

/-- Modelled from the spec: task_vforkstart performs its own
abort-and-cleanup when it fails, so the child is released exactly when
up_vfork itself called task_vforkabort or task_vforkstart was reached and
returned a negative result. -/
def vforkReleased (env : VforkEnv) (o : VforkOutcome) : Nat :=
  o.aborts.length + (if o.startCalled = true ∧ env.start_ret < 0 then 1 else 0)

/-- Modelled from the spec: the child is scheduled exactly when
task_vforkstart was reached and succeeded. -/
def vforkScheduled (env : VforkEnv) (o : VforkOutcome) : Prop :=
  o.startCalled = true ∧ 0 ≤ env.start_ret

/-! Basic arithmetic lemmas about the uint32 model. -/

theorem u32sub_of_le (a b : Nat) (ha : a < u32Mod) (hb : b ≤ a) :
    u32sub a b = a - b := by
  unfold u32sub u32Mod at *
  omega

theorem u32Mod_pos : 0 < u32Mod := by decide

/-- Reduction of up_vfork on the full success path. -/
theorem up_vfork_success (parent : tcb_s) (context : vfork_s) (env : VforkEnv)
    (mem : Nat → Nat) (child0 : task_tcb_s)
    (henv : env.setup = some child0) (hok : env.create_ret = OK)
    (hsp : context.sp < parent.adj_stack_ptr) :
    up_vfork parent context env mem =
      ⟨env.start_ret, [], true, false,
        some (vfork_child parent context env.region child0),
        memcpy mem
          (vfork_newsp (env.region.base + env.region.size) parent context)
          context.sp (vfork_stackutil parent context),
        vfork_stackutil parent context⟩ := by
  have h1 : ¬ (env.create_ret ≠ OK) := by simp [hok]
  have h2 : ¬ (parent.adj_stack_ptr ≤ context.sp) := Nat.not_le.mpr hsp
  simp only [up_vfork, henv, h1, h2, if_false, ite_false]

/-! Evaluation lemmas for the register-array updates. -/

theorem vfork_regs_SP (regs0 : Nat → Nat) (context : vfork_s)
    (newfp newsp : Nat) :
    vfork_regs regs0 context newfp newsp REG_SP = newsp := by
  simp [vfork_regs]

theorem vfork_regs_FP (regs0 : Nat → Nat) (context : vfork_s)
    (newfp newsp : Nat) :
    vfork_regs regs0 context newfp newsp REG_FP = newfp := by
  simp [vfork_regs, Function.update, REG_FP, REG_SP]

theorem vfork_regs_other (regs0 : Nat → Nat) (context : vfork_s)
    (newfp newsp : Nat) (i : Nat)
    (h4 : i ≠ REG_R4) (h5 : i ≠ REG_R5) (h6 : i ≠ REG_R6) (h7 : i ≠ REG_R7)
    (h8 : i ≠ REG_R8) (h9 : i ≠ REG_R9) (h10 : i ≠ REG_R10)
    (hfp : i ≠ REG_FP) (hsp : i ≠ REG_SP) :
    vfork_regs regs0 context newfp newsp i = regs0 i := by
  simp [vfork_regs, Function.update, h4, h5, h6, h7, h8, h9, h10, hfp, hsp]

/-! Evaluation lemmas for the syscall-copy loop. -/

theorem copySyscalls_lt (p c : Nat → xcpt_syscall_s) (n i : Nat)
    (h : i < n) : copySyscalls p c n i = p i := by
  induction n with
  | zero => omega
  | succ m ih =>
    by_cases hi : i = m
    · subst hi
      simp [copySyscalls]
    · have : i < m := by omega
      simp [copySyscalls, Function.update, hi, ih this]

theorem copySyscalls_ge (p c : Nat → xcpt_syscall_s) (n i : Nat)
    (h : n ≤ i) : copySyscalls p c n i = c i := by
  induction n with
  | zero => rfl
  | succ m ih =>
    have hi : i ≠ m := by omega
    simp [copySyscalls, Function.update, hi, ih (by omega)]

/-! Concrete values used to instantiate the theorems, following the
scenario of the spec: parent stack [0x1000, 0x2000), captured sp 0x1F00
and fp 0x1F80, child stack [0x3000, 0x4000). -/

/-- Example parent TCB: stack top 0x2000, adjusted size 0x1000. -/
def parentEx : tcb_s :=
  ⟨0x2000, 0x1000, 0x1000, 0, ⟨fun _ => 0, 0, fun _ => ⟨0, 0⟩⟩⟩

/-- Example parent TCB with two pending syscall records. -/
def parentSysEx : tcb_s :=
  ⟨0x2000, 0x1000, 0x1000, 0, ⟨fun _ => 0, 2, fun i => ⟨i + 100, i + 200⟩⟩⟩

/-- Example captured context: sp 0x1F00, fp 0x1F80. -/
def contextEx : vfork_s :=
  ⟨41, 42, 43, 44, 45, 46, 47, 0x1F80, 0x1F00, 0x555⟩

/-- Example freshly set-up child TCB with zeroed registers. -/
def childEx : task_tcb_s :=
  ⟨⟨0, 0, 0, 0, ⟨fun _ => 0, 0, fun _ => ⟨0, 0⟩⟩⟩⟩

/-- Example allocated child stack region [0x3000, 0x4000). -/
def regionEx : StackRegion := ⟨0x3000, 0x1000⟩

/-- Example environment in which every external call succeeds. -/
def envEx : VforkEnv := ⟨some childEx, 0, regionEx, 7⟩

/-- Example environment in which up_create_stack fails with -12. -/
def envFailEx : VforkEnv := ⟨some childEx, -12, regionEx, 7⟩

/-- Example memory contents. -/
def memEx : Nat → Nat := fun a => a % 256

/-! Reduction lemmas for the three early-exit paths of up_vfork. -/

theorem up_vfork_setupfail (parent : tcb_s) (context : vfork_s)
    (env : VforkEnv) (mem : Nat → Nat) (henv : env.setup = none) :
    up_vfork parent context env mem = ⟨ERROR, [], false, false, none, mem, 0⟩ := by
  simp only [up_vfork, henv]

theorem up_vfork_createfail (parent : tcb_s) (context : vfork_s)
    (env : VforkEnv) (mem : Nat → Nat) (child0 : task_tcb_s)
    (henv : env.setup = some child0) (hbad : env.create_ret ≠ OK) :
    up_vfork parent context env mem =
      ⟨ERROR, [-env.create_ret], false, false, none, mem, 0⟩ := by
  simp only [up_vfork, henv, if_pos hbad]

theorem up_vfork_fatal (parent : tcb_s) (context : vfork_s)
    (env : VforkEnv) (mem : Nat → Nat) (child0 : task_tcb_s)
    (henv : env.setup = some child0) (hok : env.create_ret = OK)
    (hsp : parent.adj_stack_ptr ≤ context.sp) :
    up_vfork parent context env mem = ⟨ERROR, [], false, true, none, mem, 0⟩ := by
  have h1 : ¬ (env.create_ret ≠ OK) := by simp [hok]
  simp only [up_vfork, henv, h1, if_false, ite_false, if_pos hsp]

/-! Arithmetic facts used by several claims. -/

theorem vfork_stackutil_eq (parent : tcb_s) (context : vfork_s)
    (htop : parent.adj_stack_ptr < u32Mod)
    (hsp : context.sp < parent.adj_stack_ptr) :
    vfork_stackutil parent context = parent.adj_stack_ptr - context.sp :=
  u32sub_of_le _ _ htop (Nat.le_of_lt hsp)

theorem region_size_ge (parent : tcb_s) (r : StackRegion)
    (hpost : up_create_stack_post (vfork_stacksize parent) r) :
    parent.adj_stack_size ≤ r.size := by
  unfold up_create_stack_post vfork_stacksize STACK_ALIGNMENT at hpost
  omega

/-! Projection lemmas for the transferred child. -/

theorem vfork_child_regs (parent : tcb_s) (context : vfork_s)
    (region : StackRegion) (child0 : task_tcb_s) :
    (vfork_child parent context region child0).cmn.xcp.regs =
      vfork_regs child0.cmn.xcp.regs context
        (vfork_newfp (region.base + region.size) parent context)
        (vfork_newsp (region.base + region.size) parent context) := by
  unfold vfork_child
  by_cases h : 0 < parent.xcp.nsyscalls <;> simp [h]

theorem up_vfork_childRegs (parent : tcb_s) (context : vfork_s)
    (env : VforkEnv) (mem : Nat → Nat) (child0 : task_tcb_s)
    (henv : env.setup = some child0) (hok : env.create_ret = OK)
    (hsp : context.sp < parent.adj_stack_ptr) (i : Nat) :
    childRegs (up_vfork parent context env mem) i =
      vfork_regs child0.cmn.xcp.regs context
        (vfork_newfp (env.region.base + env.region.size) parent context)
        (vfork_newsp (env.region.base + env.region.size) parent context) i := by
  rw [up_vfork_success parent context env mem child0 henv hok hsp]
  show (vfork_child parent context env.region child0).cmn.xcp.regs i = _
  rw [vfork_child_regs]

/-- C7 (confirmed): a captured stack pointer at or above the parent
adjusted stack top trips the DEBUGASSERT of line 187 and the call stops
fatally instead of proceeding; under the precondition sp below the parent
stack top, the unsigned subtraction of line 188 does not wrap, so the
byte count handed to memcpy is exactly parent top minus captured sp. -/
theorem C7_assert_guards_wrap (parent : tcb_s) (context : vfork_s)
    (env : VforkEnv) (mem : Nat → Nat) (child0 : task_tcb_s)
    (henv : env.setup = some child0) (hok : env.create_ret = OK)
    (htop : parent.adj_stack_ptr < u32Mod) :
    (parent.adj_stack_ptr ≤ context.sp →
      (up_vfork parent context env mem).fatal = true) ∧
    (context.sp < parent.adj_stack_ptr →
      (up_vfork parent context env mem).fatal = false ∧
      (up_vfork parent context env mem).copied =
        parent.adj_stack_ptr - context.sp) := by
  constructor
  · intro h
    rw [up_vfork_fatal parent context env mem child0 henv hok h]
  · intro h
    rw [up_vfork_success parent context env mem child0 henv hok h]
    exact ⟨rfl, vfork_stackutil_eq parent context htop h⟩

/-- Witness for C7 at the concrete scenario values. -/
theorem C7_assert_guards_wrap_witness :
    (parentEx.adj_stack_ptr ≤ contextEx.sp →
      (up_vfork parentEx contextEx envEx memEx).fatal = true) ∧
    (contextEx.sp < parentEx.adj_stack_ptr →
      (up_vfork parentEx contextEx envEx memEx).fatal = false ∧
      (up_vfork parentEx contextEx envEx memEx).copied =
        parentEx.adj_stack_ptr - contextEx.sp) :=
  C7_assert_guards_wrap parentEx contextEx envEx memEx childEx rfl rfl
    (by decide)

/-- C2 (confirmed): on every call that reaches the stack copy, the byte
count handed to memcpy equals parent adjusted stack top minus captured
sp, and under the captured-context validity precondition (sp inside the
parent stack region) it never exceeds the smaller of the parent and
child adjusted stack sizes. -/
theorem C2_copy_bound (parent : tcb_s) (context : vfork_s) (env : VforkEnv)
    (mem : Nat → Nat) (child0 : task_tcb_s)
    (henv : env.setup = some child0) (hok : env.create_ret = OK)
    (hpost : up_create_stack_post (vfork_stacksize parent) env.region)
    (htop : parent.adj_stack_ptr < u32Mod)
    (hsp : context.sp < parent.adj_stack_ptr)
    (hbase : parent.adj_stack_ptr - parent.adj_stack_size ≤ context.sp) :
    (up_vfork parent context env mem).copied =
      parent.adj_stack_ptr - context.sp ∧
    (up_vfork parent context env mem).copied ≤
      min parent.adj_stack_size env.region.size := by
  rw [up_vfork_success parent context env mem child0 henv hok hsp]
  have hu := vfork_stackutil_eq parent context htop hsp
  have hsz := region_size_ge parent env.region hpost
  show vfork_stackutil parent context = _ ∧ vfork_stackutil parent context ≤ _
  rw [hu]
  exact ⟨rfl, by omega⟩

/-- Witness for C2 at the concrete scenario values. -/
theorem C2_copy_bound_witness :
    (up_vfork parentEx contextEx envEx memEx).copied =
      parentEx.adj_stack_ptr - contextEx.sp ∧
    (up_vfork parentEx contextEx envEx memEx).copied ≤
      min parentEx.adj_stack_size envEx.region.size :=
  C2_copy_bound parentEx contextEx envEx memEx childEx rfl rfl (by decide)
    (by decide) (by decide) (by decide)

/-- C3 (confirmed): when the captured sp is below the parent adjusted
stack top and inside the parent stack region, the value stored in the
child REG_SP slot is newsp = child top - (parent top - captured sp), and
it lies strictly inside the child stack region [base, base + size). -/
theorem C3_stack_containment (parent : tcb_s) (context : vfork_s)
    (env : VforkEnv) (mem : Nat → Nat) (child0 : task_tcb_s)
    (henv : env.setup = some child0) (hok : env.create_ret = OK)
    (hpost : up_create_stack_post (vfork_stacksize parent) env.region)
    (htop : parent.adj_stack_ptr < u32Mod)
    (hsp : context.sp < parent.adj_stack_ptr)
    (hbase : parent.adj_stack_ptr - parent.adj_stack_size ≤ context.sp)
    (hfit : env.region.base + env.region.size < u32Mod) :
    childRegs (up_vfork parent context env mem) REG_SP =
      env.region.base + env.region.size -
        (parent.adj_stack_ptr - context.sp) ∧
    env.region.base ≤ childRegs (up_vfork parent context env mem) REG_SP ∧
    childRegs (up_vfork parent context env mem) REG_SP <
      env.region.base + env.region.size := by
  have hu := vfork_stackutil_eq parent context htop hsp
  have hsz := region_size_ge parent env.region hpost
  have hreg := up_vfork_childRegs parent context env mem child0 henv hok hsp
    REG_SP
  rw [vfork_regs_SP] at hreg
  have hval : vfork_newsp (env.region.base + env.region.size) parent context =
      env.region.base + env.region.size -
        (parent.adj_stack_ptr - context.sp) := by
    unfold vfork_newsp
    rw [hu]
    exact u32sub_of_le _ _ hfit (by omega)
  rw [hreg, hval]
  refine ⟨rfl, by omega, by omega⟩

/-- Witness for C3 at the concrete scenario values. -/
theorem C3_stack_containment_witness :
    childRegs (up_vfork parentEx contextEx envEx memEx) REG_SP =
      envEx.region.base + envEx.region.size -
        (parentEx.adj_stack_ptr - contextEx.sp) ∧
    envEx.region.base ≤ childRegs (up_vfork parentEx contextEx envEx memEx) REG_SP ∧
    childRegs (up_vfork parentEx contextEx envEx memEx) REG_SP <
      envEx.region.base + envEx.region.size :=
  C3_stack_containment parentEx contextEx envEx memEx childEx rfl rfl
    (by decide) (by decide) (by decide) (by decide) (by decide)

/-- Definition following the words of the spec for comparison with
vfork_stacksize: the parent adjusted stack size rounded up to the next
multiple of the stack-alignment granularity. -/
def roundUpToAlign (v : Nat) : Nat :=
  (v + STACK_ALIGNMENT - 1) / STACK_ALIGNMENT * STACK_ALIGNMENT

/-- Example parent TCB whose adjusted stack size 8 is already aligned. -/
def parentAlignedEx : tcb_s :=
  ⟨0x2000, 8, 0x1FF8, 0, ⟨fun _ => 0, 0, fun _ => ⟨0, 0⟩⟩⟩

/-- C4 counterexample: for a parent whose adjusted stack size is 8 (an
exact multiple of STACK_ALIGNMENT = 8), line 162 requests 15 bytes while
rounding 8 up to the alignment granularity gives 8, so the requested
size is not the rounded-up size. -/
theorem C4_counterexample :
    vfork_stacksize parentAlignedEx ≠
      roundUpToAlign parentAlignedEx.adj_stack_size := by decide

/-- C4 (corrected): the stack size requested for the child equals the
parent adjusted stack size plus (STACK_ALIGNMENT - 1); this is at least
the adjusted size rounded up to the alignment granularity and, for a
captured sp inside the parent stack region, never smaller than the
parent actual stack usage. -/
theorem C4_stacksize_amended (parent : tcb_s) (context : vfork_s)
    (htop : parent.adj_stack_ptr < u32Mod)
    (hsp : context.sp < parent.adj_stack_ptr)
    (hbase : parent.adj_stack_ptr - parent.adj_stack_size ≤ context.sp) :
    vfork_stacksize parent =
      parent.adj_stack_size + (STACK_ALIGNMENT - 1) ∧
    roundUpToAlign parent.adj_stack_size ≤ vfork_stacksize parent ∧
    vfork_stackutil parent context ≤ vfork_stacksize parent := by
  have hu := vfork_stackutil_eq parent context htop hsp
  unfold vfork_stacksize roundUpToAlign STACK_ALIGNMENT at *
  exact ⟨by omega, by omega, by omega⟩

/-- Witness for C4 at the concrete scenario values. -/
theorem C4_stacksize_amended_witness :
    vfork_stacksize parentEx =
      parentEx.adj_stack_size + (STACK_ALIGNMENT - 1) ∧
    roundUpToAlign parentEx.adj_stack_size ≤ vfork_stacksize parentEx ∧
    vfork_stackutil parentEx contextEx ≤ vfork_stacksize parentEx :=
  C4_stacksize_amended parentEx contextEx (by decide) (by decide) (by decide)

/-- C10 (confirmed): the in-window test of line 204 is inclusive at both
endpoints and its lower bound is parent top minus the padded size
(adjusted size + STACK_ALIGNMENT - 1): a captured fp equal to the parent
adjusted stack top is re-based to exactly the child adjusted stack top,
and a captured fp a full padded size below the top (STACK_ALIGNMENT - 1
bytes below the parent stack base) is still in-window and re-based. -/
theorem C10_window_bounds (parent : tcb_s) (context : vfork_s)
    (childTop : Nat)
    (htop : parent.adj_stack_ptr < u32Mod) (hctop : childTop < u32Mod)
    (hps : vfork_stacksize parent ≤ parent.adj_stack_ptr)
    (hcs : vfork_stacksize parent ≤ childTop) :
    (context.fp = parent.adj_stack_ptr →
      vfork_fp_inwindow parent context ∧
      vfork_newfp childTop parent context = childTop) ∧
    (context.fp = parent.adj_stack_ptr - vfork_stacksize parent →
      vfork_fp_inwindow parent context ∧
      vfork_newfp childTop parent context =
        childTop - vfork_stacksize parent) := by
  have hlow : u32sub parent.adj_stack_ptr (vfork_stacksize parent) =
      parent.adj_stack_ptr - vfork_stacksize parent :=
    u32sub_of_le _ _ htop hps
  constructor
  · intro hfp
    have hwin : vfork_fp_inwindow parent context := by
      refine ⟨Nat.le_of_eq hfp, ?_⟩
      rw [hlow, hfp]
      omega
    refine ⟨hwin, ?_⟩
    unfold vfork_newfp
    rw [if_pos hwin, hfp, u32sub_of_le _ _ htop (Nat.le_refl _)]
    rw [Nat.sub_self]
    exact u32sub_of_le _ _ hctop (Nat.zero_le _)
  · intro hfp
    have hwin : vfork_fp_inwindow parent context := by
      refine ⟨by omega, by rw [hlow, hfp]⟩
    refine ⟨hwin, ?_⟩
    unfold vfork_newfp
    rw [if_pos hwin]
    have h1 : u32sub parent.adj_stack_ptr context.fp =
        vfork_stacksize parent := by
      rw [hfp, u32sub_of_le _ _ htop (by omega)]
      omega
    rw [h1]
    exact u32sub_of_le _ _ hctop hcs

/-- Example captured context whose fp 0x2000 sits exactly at the parent
adjusted stack top, the upper window endpoint. -/
def contextTopEx : vfork_s :=
  ⟨41, 42, 43, 44, 45, 46, 47, 0x2000, 0x1F00, 0x555⟩

/-- Example captured context whose fp 0xFF9 = 0x2000 - 0x1007 sits exactly
at the padded lower window endpoint, STACK_ALIGNMENT - 1 bytes below the
parent stack base 0x1000. -/
def contextLowEx : vfork_s :=
  ⟨41, 42, 43, 44, 45, 46, 47, 0xFF9, 0x1F00, 0x555⟩

/-- Witness for C10 at both concrete window endpoints with child top
0x4000: fp at the parent top re-bases to 0x4000, and fp a full padded size
below the top is still in-window and re-bases to 0x4000 - 0x1007. -/
theorem C10_window_bounds_witness :
    (vfork_fp_inwindow parentEx contextTopEx ∧
      vfork_newfp 0x4000 parentEx contextTopEx = 0x4000) ∧
    (vfork_fp_inwindow parentEx contextLowEx ∧
      vfork_newfp 0x4000 parentEx contextLowEx =
        0x4000 - vfork_stacksize parentEx) :=
  ⟨(C10_window_bounds parentEx contextTopEx 0x4000 (by decide) (by decide)
      (by decide) (by decide)).1 (by decide),
   (C10_window_bounds parentEx contextLowEx 0x4000 (by decide) (by decide)
      (by decide) (by decide)).2 (by decide)⟩

/-- C1 counterexample: at the scenario values (parent top 0x2000, fp
0x1F80 in-window, child top 0x4000) the re-based child fp is 0x3F80, and
childFp - childTop = -0x80 while parentTop - capturedFp = 0x80, so the
claimed equation childFp - childTop = parentTop - capturedFp fails. -/
theorem C1_counterexample :
    vfork_fp_inwindow parentEx contextEx ∧
    ¬ ((childRegs (up_vfork parentEx contextEx envEx memEx) REG_FP : ℤ) -
        ((envEx.region.base + envEx.region.size : Nat) : ℤ) =
        (parentEx.adj_stack_ptr : ℤ) - (contextEx.fp : ℤ)) := by decide

/-- C1 (corrected): for an in-window captured fp the re-based child fp
satisfies childTop - childFp = parentTop - capturedFp (the offset below
the stack top is preserved; the spec equation had the two sides of one
difference swapped); for an out-of-window captured fp the value written
to the child REG_FP slot is the captured fp unchanged. -/
theorem C1_frame_rebase (parent : tcb_s) (context : vfork_s) (env : VforkEnv)
    (mem : Nat → Nat) (child0 : task_tcb_s)
    (henv : env.setup = some child0) (hok : env.create_ret = OK)
    (hsp : context.sp < parent.adj_stack_ptr)
    (htop : parent.adj_stack_ptr < u32Mod)
    (hfit : env.region.base + env.region.size < u32Mod)
    (hps : vfork_stacksize parent ≤ parent.adj_stack_ptr)
    (hcs : vfork_stacksize parent ≤ env.region.base + env.region.size) :
    (vfork_fp_inwindow parent context →
      ((env.region.base + env.region.size : Nat) : ℤ) -
        (childRegs (up_vfork parent context env mem) REG_FP : ℤ) =
        (parent.adj_stack_ptr : ℤ) - (context.fp : ℤ)) ∧
    (¬ vfork_fp_inwindow parent context →
      childRegs (up_vfork parent context env mem) REG_FP = context.fp) := by
  have hreg := up_vfork_childRegs parent context env mem child0 henv hok hsp
    REG_FP
  rw [vfork_regs_FP] at hreg
  constructor
  · intro hwin
    have hfpu : u32sub parent.adj_stack_ptr context.fp =
        parent.adj_stack_ptr - context.fp :=
      u32sub_of_le _ _ htop hwin.1
    have hfub : parent.adj_stack_ptr - context.fp ≤ vfork_stacksize parent := by
      have hlow := hwin.2
      rw [u32sub_of_le _ _ htop hps] at hlow
      omega
    have hfp_le := hwin.1
    rw [hreg]
    unfold vfork_newfp
    rw [if_pos hwin, hfpu, u32sub_of_le _ _ hfit (by omega)]
    omega
  · intro hnot
    rw [hreg]
    unfold vfork_newfp
    rw [if_neg hnot]

/-- Witness for C1 at the concrete scenario values. -/
theorem C1_frame_rebase_witness :
    (vfork_fp_inwindow parentEx contextEx →
      ((envEx.region.base + envEx.region.size : Nat) : ℤ) -
        (childRegs (up_vfork parentEx contextEx envEx memEx) REG_FP : ℤ) =
        (parentEx.adj_stack_ptr : ℤ) - (contextEx.fp : ℤ)) ∧
    (¬ vfork_fp_inwindow parentEx contextEx →
      childRegs (up_vfork parentEx contextEx envEx memEx) REG_FP =
        contextEx.fp) :=
  C1_frame_rebase parentEx contextEx envEx memEx childEx rfl rfl (by decide)
    (by decide) (by decide) (by decide) (by decide)

/-- C8 (confirmed): the context transfer of lines 221-229 writes only the
slots for r4 .. r10, the frame pointer and the stack pointer; every other
slot of the child saved-register array keeps the value generic setup left
there, and in particular a zero-initialized R0 slot still reads zero. -/
theorem C8_untouched_registers (parent : tcb_s) (context : vfork_s)
    (env : VforkEnv) (mem : Nat → Nat) (child0 : task_tcb_s)
    (henv : env.setup = some child0) (hok : env.create_ret = OK)
    (hsp : context.sp < parent.adj_stack_ptr) :
    (∀ i, i ≠ REG_R4 → i ≠ REG_R5 → i ≠ REG_R6 → i ≠ REG_R7 → i ≠ REG_R8 →
      i ≠ REG_R9 → i ≠ REG_R10 → i ≠ REG_FP → i ≠ REG_SP →
      childRegs (up_vfork parent context env mem) i =
        child0.cmn.xcp.regs i) ∧
    (child0.cmn.xcp.regs REG_R0 = 0 →
      childRegs (up_vfork parent context env mem) REG_R0 = 0) := by
  have hr := up_vfork_childRegs parent context env mem child0 henv hok hsp
  constructor
  · intro i h4 h5 h6 h7 h8 h9 h10 hfp hspx
    rw [hr i, vfork_regs_other _ _ _ _ i h4 h5 h6 h7 h8 h9 h10 hfp hspx]
  · intro h0
    rw [hr REG_R0, vfork_regs_other _ _ _ _ REG_R0 (by decide) (by decide)
      (by decide) (by decide) (by decide) (by decide) (by decide) (by decide)
      (by decide), h0]

/-- Witness for C8 at the concrete scenario values, read at slot 1 and at
the R0 slot. -/
theorem C8_untouched_registers_witness :
    childRegs (up_vfork parentEx contextEx envEx memEx) 1 =
      childEx.cmn.xcp.regs 1 ∧
    childRegs (up_vfork parentEx contextEx envEx memEx) REG_R0 = 0 := by
  have h := C8_untouched_registers parentEx contextEx envEx memEx childEx rfl
    rfl (by decide)
  exact ⟨h.1 1 (by decide) (by decide) (by decide) (by decide) (by decide)
    (by decide) (by decide) (by decide) (by decide), h.2 rfl⟩

/-! Projection lemmas for the syscall replication branch of vfork_child. -/

theorem vfork_child_syscall_pos (parent : tcb_s) (context : vfork_s)
    (region : StackRegion) (child0 : task_tcb_s)
    (h : 0 < parent.xcp.nsyscalls) :
    (vfork_child parent context region child0).cmn.xcp.nsyscalls =
      parent.xcp.nsyscalls ∧
    (vfork_child parent context region child0).cmn.xcp.syscall =
      copySyscalls parent.xcp.syscall child0.cmn.xcp.syscall
        parent.xcp.nsyscalls := by
  unfold vfork_child
  simp [h]

theorem vfork_child_syscall_zero (parent : tcb_s) (context : vfork_s)
    (region : StackRegion) (child0 : task_tcb_s)
    (h : parent.xcp.nsyscalls = 0) :
    (vfork_child parent context region child0).cmn.xcp.nsyscalls =
      child0.cmn.xcp.nsyscalls ∧
    (vfork_child parent context region child0).cmn.xcp.syscall =
      child0.cmn.xcp.syscall := by
  unfold vfork_child
  simp [h]

/-- C6 (confirmed): when the parent has N >= 1 pending syscall frames at
call time, the transferred child has pending-count N and each of the N
copied records equals the corresponding parent record field for field;
when N = 0 the replication block of lines 236-265 leaves the child
syscall state exactly as generic setup produced it. -/
theorem C6_syscall_replication (parent : tcb_s) (context : vfork_s)
    (env : VforkEnv) (mem : Nat → Nat) (child0 : task_tcb_s)
    (henv : env.setup = some child0) (hok : env.create_ret = OK)
    (hsp : context.sp < parent.adj_stack_ptr) :
    (1 ≤ parent.xcp.nsyscalls →
      childNsyscalls (up_vfork parent context env mem) =
        parent.xcp.nsyscalls ∧
      ∀ i, i < parent.xcp.nsyscalls →
        childSyscall (up_vfork parent context env mem) i =
          parent.xcp.syscall i) ∧
    (parent.xcp.nsyscalls = 0 →
      childNsyscalls (up_vfork parent context env mem) =
        child0.cmn.xcp.nsyscalls ∧
      ∀ i, childSyscall (up_vfork parent context env mem) i =
        child0.cmn.xcp.syscall i) := by
  rw [up_vfork_success parent context env mem child0 henv hok hsp]
  constructor
  · intro hn
    have h1 := vfork_child_syscall_pos parent context env.region child0 hn
    refine ⟨?_, ?_⟩
    · show (vfork_child parent context env.region child0).cmn.xcp.nsyscalls = _
      exact h1.1
    · intro i hi
      show (vfork_child parent context env.region child0).cmn.xcp.syscall i = _
      rw [h1.2]
      exact copySyscalls_lt _ _ _ _ hi
  · intro h0
    have h1 := vfork_child_syscall_zero parent context env.region child0 h0
    refine ⟨?_, ?_⟩
    · show (vfork_child parent context env.region child0).cmn.xcp.nsyscalls = _
      exact h1.1
    · intro i
      show (vfork_child parent context env.region child0).cmn.xcp.syscall i = _
      exact congrFun h1.2 i

/-- Witness for C6 with a parent that has two pending syscall records. -/
theorem C6_syscall_replication_witness :
    childNsyscalls (up_vfork parentSysEx contextEx envEx memEx) =
      parentSysEx.xcp.nsyscalls ∧
    childSyscall (up_vfork parentSysEx contextEx envEx memEx) 1 =
      parentSysEx.xcp.syscall 1 := by
  have h := C6_syscall_replication parentSysEx contextEx envEx memEx childEx
    rfl rfl (by decide)
  exact ⟨(h.1 (by decide)).1, (h.1 (by decide)).2 1 (by decide)⟩

/-- C5 (confirmed): on setup failure up_vfork returns the error sentinel
with no abort call and nothing allocated; on stack-allocation failure it
calls task_vforkabort exactly once with the negated allocator error code
and returns the error sentinel; on start failure the child is released
exactly once inside task_vforkstart and a negative result is forwarded;
and whenever setup produced a child, the child ends either scheduled
with no release or released exactly once, never both and never neither. -/
theorem C5_cleanup_exactly_once (parent : tcb_s) (context : vfork_s)
    (env : VforkEnv) (mem : Nat → Nat)
    (hnofatal : ∀ c0, env.setup = some c0 → env.create_ret = OK →
      context.sp < parent.adj_stack_ptr) :
    (env.setup = none →
      (up_vfork parent context env mem).retval = ERROR ∧
      (up_vfork parent context env mem).aborts = [] ∧
      vforkReleased env (up_vfork parent context env mem) = 0 ∧
      ¬ vforkScheduled env (up_vfork parent context env mem)) ∧
    (env.setup ≠ none → env.create_ret ≠ OK →
      (up_vfork parent context env mem).retval = ERROR ∧
      (up_vfork parent context env mem).aborts = [-env.create_ret] ∧
      vforkReleased env (up_vfork parent context env mem) = 1 ∧
      ¬ vforkScheduled env (up_vfork parent context env mem)) ∧
    (env.setup ≠ none → env.create_ret = OK → env.start_ret < 0 →
      (up_vfork parent context env mem).retval < 0 ∧
      vforkReleased env (up_vfork parent context env mem) = 1 ∧
      ¬ vforkScheduled env (up_vfork parent context env mem)) ∧
    (env.setup ≠ none →
      (vforkScheduled env (up_vfork parent context env mem) ∧
        vforkReleased env (up_vfork parent context env mem) = 0) ∨
      (¬ vforkScheduled env (up_vfork parent context env mem) ∧
        vforkReleased env (up_vfork parent context env mem) = 1)) := by
  refine ⟨?_, ?_, ?_, ?_⟩
  · intro h
    rw [up_vfork_setupfail parent context env mem h]
    refine ⟨rfl, rfl, by simp [vforkReleased], by simp [vforkScheduled]⟩
  · intro hne hbad
    cases hsetup : env.setup with
    | none => exact absurd hsetup hne
    | some c0 =>
      rw [up_vfork_createfail parent context env mem c0 hsetup hbad]
      refine ⟨rfl, rfl, by simp [vforkReleased], by simp [vforkScheduled]⟩
  · intro hne hok hstart
    cases hsetup : env.setup with
    | none => exact absurd hsetup hne
    | some c0 =>
      have hsp := hnofatal c0 hsetup hok
      rw [up_vfork_success parent context env mem c0 hsetup hok hsp]
      refine ⟨hstart, by simp [vforkReleased, hstart], ?_⟩
      simp only [vforkScheduled]
      intro hsched
      omega
  · intro hne
    cases hsetup : env.setup with
    | none => exact absurd hsetup hne
    | some c0 =>
      by_cases hok : env.create_ret = OK
      · have hsp := hnofatal c0 hsetup hok
        rw [up_vfork_success parent context env mem c0 hsetup hok hsp]
        by_cases hst : env.start_ret < 0
        · refine Or.inr ⟨?_, by simp [vforkReleased, hst]⟩
          simp only [vforkScheduled]
          intro hsched
          omega
        · exact Or.inl ⟨⟨rfl, by omega⟩, by simp [vforkReleased, hst]⟩
      · rw [up_vfork_createfail parent context env mem c0 hsetup hok]
        exact Or.inr ⟨by simp [vforkScheduled], by simp [vforkReleased]⟩

/-- Witness for C5 at the environment in which up_create_stack fails
with -12: one abort with code 12, error result, no schedule. -/
theorem C5_cleanup_exactly_once_witness :
    (up_vfork parentEx contextEx envFailEx memEx).retval = ERROR ∧
    (up_vfork parentEx contextEx envFailEx memEx).aborts =
      [-envFailEx.create_ret] ∧
    vforkReleased envFailEx (up_vfork parentEx contextEx envFailEx memEx) = 1 ∧
    ¬ vforkScheduled envFailEx (up_vfork parentEx contextEx envFailEx memEx) := by
  have h := C5_cleanup_exactly_once parentEx contextEx envFailEx memEx
    (fun c0 h1 h2 => absurd h2 (by decide))
  exact h.2.1 (Option.some_ne_none childEx) (by decide)

/-- C9 (confirmed): the only memory the call writes is the byte range
memcpy fills inside the child stack region; every address outside the
child region [base, base + size) — in particular the whole parent stack,
the parent TCB storage and the captured context record — holds its old
value afterwards. -/
theorem C9_no_writes_outside_child (parent : tcb_s) (context : vfork_s)
    (env : VforkEnv) (mem : Nat → Nat) (child0 : task_tcb_s)
    (henv : env.setup = some child0) (hok : env.create_ret = OK)
    (hpost : up_create_stack_post (vfork_stacksize parent) env.region)
    (htop : parent.adj_stack_ptr < u32Mod)
    (hsp : context.sp < parent.adj_stack_ptr)
    (hbase : parent.adj_stack_ptr - parent.adj_stack_size ≤ context.sp)
    (hfit : env.region.base + env.region.size < u32Mod) :
    ∀ a, a < env.region.base ∨ env.region.base + env.region.size ≤ a →
      (up_vfork parent context env mem).mem a = mem a := by
  intro a ha
  rw [up_vfork_success parent context env mem child0 henv hok hsp]
  show memcpy mem
    (vfork_newsp (env.region.base + env.region.size) parent context)
    context.sp (vfork_stackutil parent context) a = mem a
  have hu := vfork_stackutil_eq parent context htop hsp
  have hsz := region_size_ge parent env.region hpost
  have hval : vfork_newsp (env.region.base + env.region.size) parent context =
      env.region.base + env.region.size -
        (parent.adj_stack_ptr - context.sp) := by
    unfold vfork_newsp
    rw [hu]
    exact u32sub_of_le _ _ hfit (by omega)
  unfold memcpy
  rw [if_neg (by rw [hval, hu]; omega)]

/-- Witness for C9 at the concrete scenario values, read back at the
parent stack address 0x1F00. -/
theorem C9_no_writes_outside_child_witness :
    (up_vfork parentEx contextEx envEx memEx).mem 0x1F00 = memEx 0x1F00 :=
  C9_no_writes_outside_child parentEx contextEx envEx memEx childEx rfl rfl
    (by decide) (by decide) (by decide) (by decide) (by decide) 0x1F00
    (by decide)
